import Mathlib

/-!
Shallow embedding of the osbs-box orchestration script (osbs-box.py).

The script shells out to external tools; we model each external
interaction by its observable data:
  * a command execution is a pair of an exit status (Nat) and the list of
    lines read from its combined output stream;
  * the polling loops consume a sequence of such execution results,
    modelled as a function from the attempt index;
  * exceptions are modelled by the PyExc type below; a try/except clause
    catches exactly the constructor named by its except line;
  * printing and sleeping are modelled by recording counts or payloads in
    the outcome values.
All definitions are translated directly from the source functions they
are named after.
-/

/-- Single-quote character, used when assembling shell command strings. -/
def squote : String := String.singleton (Char.ofNat 39)

/-- Python str/bytes rstrip: drop trailing whitespace characters. -/
def pyRstrip (s : String) : String :=
  String.mk ((s.data.reverse.dropWhile Char.isWhitespace).reverse)

/-- Python str lstrip: drop leading whitespace characters. -/
def pyLstrip (s : String) : String :=
  String.mk (s.data.dropWhile Char.isWhitespace)

/-- Python str.strip(). -/
def pyStrip (s : String) : String := pyLstrip (pyRstrip s)

/-- Concatenation of a list of strings (the += accumulation in the source). -/
def concatLines : List String → String
  | [] => ""
  | l :: ls => l ++ concatLines ls

/-- Decidable list prefix test over characters. -/
def prefB : List Char → List Char → Bool
  | [], _ => true
  | _ :: _, [] => false
  | a :: as, b :: bs => a = b && prefB as bs

/-- Decidable contiguous-sublist test over characters. -/
def containsL (n : List Char) : List Char → Bool
  | [] => prefB n []
  | c :: t => prefB n (c :: t) || containsL n t

/-- Decidable substring test on strings (Python `needle in hay`). -/
def strContainsB (needle hay : String) : Bool := containsL needle.data hay.data

/-- Exceptions relevant to the script. `_run` raises runtimeError;
check_call raises calledProcessError; a failed assert raises
assertionError. -/
inductive PyExc where
  | runtimeError (msg : String)
  | calledProcessError (code : Nat)
  | assertionError
deriving DecidableEq

/-- True exactly on the exception type named by the except clauses in the
polling loops (except CalledProcessError). -/
def isCPE : PyExc → Bool
  | PyExc.calledProcessError _ => true
  | _ => false

/-- The message of the RuntimeError raised by `_run` on a nonzero exit:
the format string from the source with cmd and exit code substituted. -/
def runErrMsg (cmd : String) (exitcode : Nat) : String :=
  "Command " ++ cmd ++ " failed with exitcode " ++ toString exitcode

/-- The output string `_run` accumulates: each line read is rstripped and
a newline appended; the final accumulated output is stripped. -/
def pyCaptured (lines : List String) : String :=
  pyStrip (concatLines (lines.map (fun l => pyRstrip l ++ "\n")))

/-- Embedding of `_run(cmd, ignore_exitcode, show_print)`: the external
process is represented by its exit status and output lines; show_print
only affects console echo, not the returned value. On a nonzero exit with
ignore_exitcode unset it raises RuntimeError; otherwise it returns the
captured output. -/
def _run (cmd : String) (exitcode : Nat) (lines : List String)
    (ignore_exitcode : Bool) : Except PyExc String :=
  if ignore_exitcode = false ∧ exitcode ≠ 0 then
    Except.error (PyExc.runtimeError (runErrMsg cmd exitcode))
  else
    Except.ok (pyCaptured lines)

/-- Module-level constant LOCAL_REGISTRY from the source. -/
def LOCAL_REGISTRY : String := "172.17.0.1:5000"

/-- Module-level dir_path: the basename of the script directory with
dashes removed; for a checkout named osbs-box this is "osbsbox". -/
def dir_path : String := "osbsbox"

/-- The docker inspect command string assembled by
_wait_until_container_is_up (after _run joins the argument list). -/
def inspectCmd (container : String) : String :=
  "docker inspect --format=" ++ squote ++ "\x7b\x7b.State.Running\x7d\x7d" ++ squote
    ++ " " ++ dir_path ++ "_" ++ container ++ "_1"

/-- Outcome of `_wait_until_container_is_up`: either the loop broke with
container_is_up set (success), or an exception escaped the loop uncaught,
or the loop exhausted and the final assert failed. Each outcome records
the number of attempts performed and of sleep(1) calls executed. -/
inductive ContainerOutcome where
  | success (attempts sleeps : Nat)
  | uncaught (attempts sleeps : Nat) (e : PyExc)
  | assertFail (attempts sleeps : Nat)
deriving DecidableEq

/-- The body of the for-loop of `_wait_until_container_is_up`, running
from absolute attempt index i with the given remaining iteration budget.
Each attempt calls `_run` (show_print=False) on that attempt's execution
result; on ok output equal to the sentinel it breaks with success; on any
other ok output it continues; a raised exception is caught (with a
sleep(1)) only when it matches CalledProcessError, otherwise it escapes.
When the budget is exhausted, `assert container_is_up` fails. -/
def waitContainerAux (container : String) (results : Nat → Nat × List String)
    (i sleeps : Nat) : Nat → ContainerOutcome
  | 0 => ContainerOutcome.assertFail i sleeps
  | r + 1 =>
    match _run (inspectCmd container) (results i).1 (results i).2 false with
    | Except.ok out =>
      if out = "true" then ContainerOutcome.success (i + 1) sleeps
      else waitContainerAux container results (i + 1) sleeps r
    | Except.error e =>
      if isCPE e then waitContainerAux container results (i + 1) (sleeps + 1) r
      else ContainerOutcome.uncaught (i + 1) sleeps e

/-- Embedding of `_wait_until_container_is_up(container)`: ten attempts,
the k-th attempt observing results k. -/
def _wait_until_container_is_up (container : String)
    (results : Nat → Nat × List String) : ContainerOutcome :=
  waitContainerAux container results 0 0 10

/-- The string `_run` returns for attempt i of the container poller. -/
def outputAt (results : Nat → Nat × List String) (i : Nat) : String :=
  pyCaptured (results i).2

/-- Boolean success recognizer for ContainerOutcome. -/
def isSuccess : ContainerOutcome → Bool
  | ContainerOutcome.success _ _ => true
  | _ => false

/-- Number of sleep(1) calls recorded in a ContainerOutcome. -/
def sleepsOf : ContainerOutcome → Nat
  | ContainerOutcome.success _ s => s
  | ContainerOutcome.uncaught _ s _ => s
  | ContainerOutcome.assertFail _ s => s

/-- Outcome of `_wait_until_string_is_in_logs`: found records how many
lines were read before the loop broke with container_initialized set;
notFound records the buffered log text (which the source prints) and the
two components of the RuntimeError argument tuple
("%s failed to start", container). -/
inductive LogsOutcome where
  | found (linesRead : Nat)
  | notFound (logs excFmt excArg : String)
deriving DecidableEq

/-- The read loop of `_wait_until_string_is_in_logs`: each line read is
appended to the accumulated container_logs, then tested for the target
substring; end of the list models readline returning the empty bytes
(end-of-stream, the `if not line: break` branch). The process is modelled
as running until its output is exhausted, so the `while not
process.poll()` guard stays true throughout. -/
def waitLogsAux (target container acc : String) (n : Nat) :
    List String → LogsOutcome
  | [] => LogsOutcome.notFound acc "%s failed to start" container
  | l :: ls =>
    if strContainsB target l then LogsOutcome.found (n + 1)
    else waitLogsAux target container (acc ++ l) (n + 1) ls

/-- Embedding of `_wait_until_string_is_in_logs(container, str_to_find)`
over the stream of log lines produced before end-of-output. -/
def _wait_until_string_is_in_logs (container str_to_find : String)
    (lines : List String) : LogsOutcome :=
  waitLogsAux str_to_find container "" 0 lines

/-- Outcome of `_wait_until_openshift_is_up`: ok when some check_call
succeeded, raised when the loop exhausted; both record the number of
invocations of the status command and of sleep(1) calls. -/
inductive OcOutcome where
  | ok (invocations sleeps : Nat)
  | raised (invocations sleeps : Nat) (msg : String)
deriving DecidableEq

/-- Message of the RuntimeError raised on exhaustion. -/
def ocFailMsg : String :=
  "OpenShift cluster is not up! See logs for \"origin\" container."

/-- The loop of `_wait_until_openshift_is_up`: attempt i invokes
check_call on `oc cluster status`, modelled by results i (true = exit 0).
Success returns at once; a CalledProcessError is caught and followed by
sleep(1); after the budget is exhausted the RuntimeError is raised. -/
def waitOpenshiftAux (results : Nat → Bool) (i sleeps : Nat) : Nat → OcOutcome
  | 0 => OcOutcome.raised i sleeps ocFailMsg
  | r + 1 =>
    if results i then OcOutcome.ok (i + 1) sleeps
    else waitOpenshiftAux results (i + 1) (sleeps + 1) r

/-- Embedding of `_wait_until_openshift_is_up()`: ninety attempts. -/
def _wait_until_openshift_is_up (results : Nat → Bool) : OcOutcome :=
  waitOpenshiftAux results 0 0 90

/-- An entry of the allowedRegistriesForImport list: a YAML mapping with
a domainName key and possibly further keys (kept opaque). -/
structure Registry where
  domainName : String
  extra : List (String × String) := []
deriving DecidableEq

/-- The slice of master-config.yaml that `_update_origin_config` touches:
the outer Option is presence of the imagePolicyConfig key, the inner
Option is presence of allowedRegistriesForImport under it; rest stands
for all other keys of the document, untouched by the function. -/
structure OriginConfig where
  imagePolicy : Option (Option (List Registry))
  rest : List (String × String) := []
deriving DecidableEq

/-- The registries list after the two setdefault calls. -/
def registriesOf (c : OriginConfig) : List Registry :=
  (c.imagePolicy.getD none).getD []

/-- The set of domainName values of the registries list. -/
def domainsOf (c : OriginConfig) : List String :=
  (registriesOf c).map Registry.domainName

/-- Embedding of `_update_origin_config()`: the first component is the
returned Bool, the second is the configuration written back to the file
(none when the function returns without writing). When LOCAL_REGISTRY is
not among the domains, an entry with only a domainName key is appended
and the updated document is dumped; otherwise nothing is written. On the
False path both keys already existed (the list contains an entry), so the
setdefault calls did not alter the document. -/
def _update_origin_config (c : OriginConfig) : Bool × Option OriginConfig :=
  if LOCAL_REGISTRY ∈ domainsOf c then (false, none)
  else
    (true, some { c with
      imagePolicy := some (some (registriesOf c ++ [{ domainName := LOCAL_REGISTRY }])) })

/-- Embedding of `_pull_image(source, destination_repo)`: the list of
argument vectors passed to `_run`, in order. -/
def _pull_image (source destination_repo : String) : List (List String) :=
  [["docker", "pull", source],
   ["docker", "tag", source, LOCAL_REGISTRY ++ "/" ++ destination_repo],
   ["docker", "push", LOCAL_REGISTRY ++ "/" ++ destination_repo]]

/-- Module-level constant DIRECTORIES from the source. -/
def DIRECTORIES : List String :=
  ["base", "client", "koji-db", "hub", "koji-builder", "shared-data"]

/-- Module-level constant SERVICES from the source. -/
def SERVICES : List String :=
  ["shared-data", "koji-db", "koji-hub", "koji-builder", "koji-client", "skopeo-lite"]

/-- The operations the `up` handler performs, in order, abstracting each
step by its inputs. -/
inductive UpEvent where
  | cleanup
  | printUp
  | generateCerts
  | reuseCerts
  | osUp (version image : String) (publicHostname : Option String)
  | copyDockerfile (dir distro : String)
  | buildBase (noCache updates updatesTesting : Bool)
      (repoUrl : Option String) (distro : String)
  | composeBuild (svc : String)
  | composeUp
  | waitContainer (name : String)
  | waitForLog (name target : String)
  | copyImage (src dst : String)
deriving DecidableEq

/-- The argparse namespace for the `up` subcommand. -/
structure UpArgs where
  no_cleanup : Bool
  force_rebuild : Bool
  updates : Bool
  updates_testing : Bool
  repo_url : Option String
  distro : String
  ocp_version : String
  ocp_image : String
  public_hostname : Option String
deriving DecidableEq

/-- The sequence of operations `up` performs after the initial cleanup
conditional, when every step succeeds: print the banner, generate or
reuse certificates depending on whether the ssl directory exists, start
the cluster (os_up), copy the per-directory Dockerfiles, build the base
image, build each compose service, start the compose stack, run the
readiness polls, and copy the AUTO_PULL_IMAGES entry. -/
def upRest (args : UpArgs) (sslExists : Bool) : List UpEvent :=
  [UpEvent.printUp] ++
  (if sslExists then [UpEvent.reuseCerts] else [UpEvent.generateCerts]) ++
  [UpEvent.osUp args.ocp_version args.ocp_image args.public_hostname] ++
  DIRECTORIES.map (fun d => UpEvent.copyDockerfile d args.distro) ++
  [UpEvent.buildBase args.force_rebuild args.updates args.updates_testing
      args.repo_url args.distro] ++
  SERVICES.map UpEvent.composeBuild ++
  [UpEvent.composeUp,
   UpEvent.waitContainer "koji-client",
   UpEvent.waitForLog (dir_path ++ "_koji-client_1") "exec sleep infinity",
   UpEvent.waitContainer "koji-db",
   UpEvent.waitContainer "koji-hub",
   UpEvent.waitContainer "koji-builder",
   UpEvent.waitForLog (dir_path ++ "_koji-builder_1") "exec /usr/sbin/init",
   UpEvent.copyImage "registry.fedoraproject.org/fedora:latest" "fedora:latest"]

/-- Embedding of `up(args)` as its operation trace: cleanup runs first
unless --no-cleanup was given, followed by the rest of the handler. -/
def up (args : UpArgs) (sslExists : Bool) : List UpEvent :=
  (if args.no_cleanup then [] else [UpEvent.cleanup]) ++ upRest args sslExists

/- Helper lemmas about strings and the substring test. -/

theorem strAppendNil (s : String) : s ++ "" = s := by
  cases s with
  | mk l => exact congrArg String.mk (List.append_nil l)

theorem strAppendAssoc (a b c : String) : a ++ b ++ c = a ++ (b ++ c) := by
  cases a with
  | mk la =>
    cases b with
    | mk lb =>
      cases c with
      | mk lc => exact congrArg String.mk (List.append_assoc la lb lc)

theorem prefB_append (n t : List Char) : prefB n (n ++ t) = true := by
  induction n with
  | nil => rfl
  | cons a as ih => simp [prefB, ih]

theorem containsL_self_append (n suf : List Char) :
    containsL n (n ++ suf) = true := by
  cases n with
  | nil =>
    cases suf with
    | nil => rfl
    | cons c t => simp [containsL, prefB]
  | cons a as =>
    show (prefB (a :: as) ((a :: as) ++ suf) || containsL (a :: as) (as ++ suf)) = true
    rw [prefB_append]
    rfl

theorem containsL_append_left (n pre rest : List Char)
    (h : containsL n rest = true) : containsL n (pre ++ rest) = true := by
  induction pre with
  | nil => simpa using h
  | cons c t ih =>
    show (prefB n (c :: (t ++ rest)) || containsL n (t ++ rest)) = true
    rw [ih, Bool.or_true]

theorem strContainsB_middle (pre n suf : String) :
    strContainsB n (pre ++ n ++ suf) = true := by
  show containsL n.data (pre ++ n ++ suf).data = true
  have hd : (pre ++ n ++ suf).data = pre.data ++ (n.data ++ suf.data) := by
    cases pre with
    | mk lp =>
      cases n with
      | mk ln =>
        cases suf with
        | mk ls => exact List.append_assoc lp ln ls
  rw [hd]
  exact containsL_append_left _ _ _ (containsL_self_append _ _)

/- Step lemmas for the container poller. -/

theorem waitAux_step_ok_true (c : String) (results : Nat → Nat × List String)
    (i s r : Nat) (h0 : (results i).1 = 0)
    (ht : pyCaptured (results i).2 = "true") :
    waitContainerAux c results i s (r + 1) = ContainerOutcome.success (i + 1) s := by
  simp [waitContainerAux, _run, h0, ht]

theorem waitAux_step_ok_false (c : String) (results : Nat → Nat × List String)
    (i s r : Nat) (h0 : (results i).1 = 0)
    (ht : pyCaptured (results i).2 ≠ "true") :
    waitContainerAux c results i s (r + 1) = waitContainerAux c results (i + 1) s r := by
  simp [waitContainerAux, _run, h0, ht]

theorem waitAux_step_err (c : String) (results : Nat → Nat × List String)
    (i s r : Nat) (h0 : (results i).1 ≠ 0) :
    waitContainerAux c results i s (r + 1) =
      ContainerOutcome.uncaught (i + 1) s
        (PyExc.runtimeError (runErrMsg (inspectCmd c) (results i).1)) := by
  simp [waitContainerAux, _run, h0, isCPE]

theorem waitAux_sleeps (c : String) (results : Nat → Nat × List String) :
    ∀ (r i s : Nat), sleepsOf (waitContainerAux c results i s r) = s := by
  intro r
  induction r with
  | zero => intro i s; rfl
  | succ r2 ih =>
    intro i s
    by_cases h0 : (results i).1 = 0
    · by_cases ht : pyCaptured (results i).2 = "true"
      · rw [waitAux_step_ok_true c results i s r2 h0 ht]; rfl
      · rw [waitAux_step_ok_false c results i s r2 h0 ht]; exact ih (i + 1) s
    · rw [waitAux_step_err c results i s r2 h0]; rfl

theorem waitAux_success (c : String) (results : Nat → Nat × List String) :
    ∀ (N r i s : Nat), N < r →
    (∀ j, j < N → (results (i + j)).1 = 0 ∧ outputAt results (i + j) ≠ "true") →
    (results (i + N)).1 = 0 → outputAt results (i + N) = "true" →
    waitContainerAux c results i s r = ContainerOutcome.success (i + N + 1) s := by
  intro N
  induction N with
  | zero =>
    intro r i s hr _ h0 ht
    cases r with
    | zero => omega
    | succ r2 =>
      rw [Nat.add_zero] at h0 ht
      rw [waitAux_step_ok_true c results i s r2 h0 ht, Nat.add_zero]
  | succ N2 ih =>
    intro r i s hr hj h0 ht
    cases r with
    | zero => omega
    | succ r2 =>
      have hj0 := hj 0 (Nat.succ_pos N2)
      rw [Nat.add_zero] at hj0
      rw [waitAux_step_ok_false c results i s r2 hj0.1 hj0.2]
      have hs : i + 1 + N2 = i + (N2 + 1) := by omega
      have h1 : ∀ j, j < N2 →
          (results (i + 1 + j)).1 = 0 ∧ outputAt results (i + 1 + j) ≠ "true" := by
        intro j hjN
        have := hj (j + 1) (by omega)
        rw [show i + (j + 1) = i + 1 + j by omega] at this
        exact this
      have h2 : (results (i + 1 + N2)).1 = 0 := by rw [hs]; exact h0
      have h3 : outputAt results (i + 1 + N2) = "true" := by rw [hs]; exact ht
      rw [ih r2 (i + 1) s (by omega) h1 h2 h3, hs]

theorem waitAux_exhaust (c : String) (results : Nat → Nat × List String) :
    ∀ (r i s : Nat),
    (∀ j, j < r → (results (i + j)).1 = 0 ∧ outputAt results (i + j) ≠ "true") →
    waitContainerAux c results i s r = ContainerOutcome.assertFail (i + r) s := by
  intro r
  induction r with
  | zero => intro i s _; rw [Nat.add_zero]; rfl
  | succ r2 ih =>
    intro i s hj
    have hj0 := hj 0 (Nat.succ_pos r2)
    rw [Nat.add_zero] at hj0
    rw [waitAux_step_ok_false c results i s r2 hj0.1 hj0.2]
    have h1 : ∀ j, j < r2 →
        (results (i + 1 + j)).1 = 0 ∧ outputAt results (i + 1 + j) ≠ "true" := by
      intro j hjN
      have := hj (j + 1) (by omega)
      rw [show i + (j + 1) = i + 1 + j by omega] at this
      exact this
    rw [ih (i + 1) s h1, show i + 1 + r2 = i + (r2 + 1) by omega]

theorem waitAux_uncaught (c : String) (results : Nat → Nat × List String) :
    ∀ (N r i s : Nat), N < r →
    (∀ j, j < N → (results (i + j)).1 = 0 ∧ outputAt results (i + j) ≠ "true") →
    (results (i + N)).1 ≠ 0 →
    waitContainerAux c results i s r =
      ContainerOutcome.uncaught (i + N + 1) s
        (PyExc.runtimeError (runErrMsg (inspectCmd c) (results (i + N)).1)) := by
  intro N
  induction N with
  | zero =>
    intro r i s hr _ h0
    cases r with
    | zero => omega
    | succ r2 =>
      rw [Nat.add_zero] at h0
      rw [waitAux_step_err c results i s r2 h0]
      simp
  | succ N2 ih =>
    intro r i s hr hj h0
    cases r with
    | zero => omega
    | succ r2 =>
      have hj0 := hj 0 (Nat.succ_pos N2)
      rw [Nat.add_zero] at hj0
      rw [waitAux_step_ok_false c results i s r2 hj0.1 hj0.2]
      have hs : i + 1 + N2 = i + (N2 + 1) := by omega
      have h1 : ∀ j, j < N2 →
          (results (i + 1 + j)).1 = 0 ∧ outputAt results (i + 1 + j) ≠ "true" := by
        intro j hjN
        have := hj (j + 1) (by omega)
        rw [show i + (j + 1) = i + 1 + j by omega] at this
        exact this
      have h2 : (results (i + 1 + N2)).1 ≠ 0 := by rw [hs]; exact h0
      rw [ih r2 (i + 1) s (by omega) h1 h2, hs]

/- Lemmas for the log-substring poller. -/

theorem waitLogsAux_found (target container : String) (l : String)
    (post : List String) (hl : strContainsB target l = true) :
    ∀ (pre : List String) (acc : String) (n : Nat),
    (∀ p, p ∈ pre → strContainsB target p = false) →
    waitLogsAux target container acc n (pre ++ l :: post) =
      LogsOutcome.found (n + pre.length + 1) := by
  intro pre
  induction pre with
  | nil =>
    intro acc n _
    show waitLogsAux target container acc n (l :: post) = _
    rw [waitLogsAux, if_pos hl]
    simp
  | cons p t ih =>
    intro acc n hpre
    have hp : strContainsB target p = false := hpre p (List.mem_cons_self p t)
    show waitLogsAux target container acc n (p :: (t ++ l :: post)) = _
    rw [waitLogsAux, if_neg (by simp [hp])]
    rw [ih (acc ++ p) (n + 1) (fun q hq => hpre q (List.mem_cons_of_mem p hq))]
    have : n + 1 + t.length = n + (p :: t).length := by simp; omega
    rw [this]

theorem waitLogsAux_notFound (target container : String) :
    ∀ (lines : List String) (acc : String) (n : Nat),
    (∀ l, l ∈ lines → strContainsB target l = false) →
    waitLogsAux target container acc n lines =
      LogsOutcome.notFound (acc ++ concatLines lines) "%s failed to start" container := by
  intro lines
  induction lines with
  | nil =>
    intro acc n _
    show LogsOutcome.notFound acc _ _ = _
    rw [show concatLines [] = "" from rfl, strAppendNil]
  | cons l ls ih =>
    intro acc n hno
    have hl : strContainsB target l = false := hno l (List.mem_cons_self l ls)
    show waitLogsAux target container acc n (l :: ls) = _
    rw [waitLogsAux, if_neg (by simp [hl])]
    rw [ih (acc ++ l) (n + 1) (fun q hq => hno q (List.mem_cons_of_mem l hq))]
    rw [show concatLines (l :: ls) = l ++ concatLines ls from rfl, strAppendAssoc]

/- Lemmas for the openshift poller. -/

theorem waitOcAux_exhaust (results : Nat → Bool) :
    ∀ (r i s : Nat), (∀ j, j < r → results (i + j) = false) →
    waitOpenshiftAux results i s r = OcOutcome.raised (i + r) (s + r) ocFailMsg := by
  intro r
  induction r with
  | zero => intro i s _; simp [waitOpenshiftAux]
  | succ r2 ih =>
    intro i s hj
    have h0 : results i = false := by
      have := hj 0 (Nat.succ_pos r2)
      rwa [Nat.add_zero] at this
    rw [waitOpenshiftAux, if_neg (by simp [h0])]
    have h1 : ∀ j, j < r2 → results (i + 1 + j) = false := by
      intro j hjN
      have := hj (j + 1) (by omega)
      rwa [show i + (j + 1) = i + 1 + j by omega] at this
    rw [ih (i + 1) (s + 1) h1,
      show i + 1 + r2 = i + (r2 + 1) by omega,
      show s + 1 + r2 = s + (r2 + 1) by omega]

/-- Claim C1, counterexample: an inspection-command result sequence whose
first attempt exits nonzero and whose second attempt yields the sentinel
"true". The claim says the poller returns success, but the RuntimeError
raised by _run on attempt 1 is not matched by the except
CalledProcessError clause and escapes the loop, so the poller does not
succeed. -/
theorem C1_counterexample :
    outputAt (fun i => if i = 0 then (1, ([] : List String)) else (0, ["true\n"])) 1 = "true" ∧
    isSuccess (_wait_until_container_is_up "koji-client"
      (fun i => if i = 0 then (1, ([] : List String)) else (0, ["true\n"]))) = false := by
  decide

/-- Claim C1 (amended): provided every inspection invocation within the
ceiling exits with status 0, the state-flag poller returns success as
soon as an attempt within the ceiling of 10 yields the sentinel "true",
and when no attempt among the 10 yields "true" it performs exactly 10
attempts and then fails the assert. -/
theorem C1_amended_thm (container : String) (results : Nat → Nat × List String)
    (h0 : ∀ i, i < 10 → (results i).1 = 0) :
    (∀ N, N < 10 → outputAt results N = "true" →
      (∀ i, i < N → outputAt results i ≠ "true") →
      _wait_until_container_is_up container results = ContainerOutcome.success (N + 1) 0) ∧
    ((∀ i, i < 10 → outputAt results i ≠ "true") →
      _wait_until_container_is_up container results = ContainerOutcome.assertFail 10 0) := by
  constructor
  · intro N hN ht hbefore
    have hstep : ∀ j, j < N →
        (results (0 + j)).1 = 0 ∧ outputAt results (0 + j) ≠ "true" := by
      intro j hj
      rw [Nat.zero_add]
      exact ⟨h0 j (by omega), hbefore j hj⟩
    have hN0 : (results (0 + N)).1 = 0 := by rw [Nat.zero_add]; exact h0 N hN
    have htN : outputAt results (0 + N) = "true" := by rw [Nat.zero_add]; exact ht
    have h := waitAux_success container results N 10 0 0 hN hstep hN0 htN
    show waitContainerAux container results 0 0 10 = _
    rw [h, Nat.zero_add]
  · intro hall
    have hstep : ∀ j, j < 10 →
        (results (0 + j)).1 = 0 ∧ outputAt results (0 + j) ≠ "true" := by
      intro j hj
      rw [Nat.zero_add]
      exact ⟨h0 j hj, hall j hj⟩
    have h := waitAux_exhaust container results 10 0 0 hstep
    show waitContainerAux container results 0 0 10 = _
    rw [h]

/-- Claim C1, witness: the amended theorem applied at concrete inputs; a
sequence yielding "true" on the first attempt succeeds after one attempt,
and a sequence never yielding "true" fails the assert after 10. -/
theorem C1_witness :
    _wait_until_container_is_up "koji-client" (fun _ => (0, ["true\n"])) =
      ContainerOutcome.success 1 0 ∧
    _wait_until_container_is_up "koji-db" (fun _ => (0, ["starting\n"])) =
      ContainerOutcome.assertFail 10 0 := by
  constructor
  · exact (C1_amended_thm "koji-client" (fun _ => (0, ["true\n"]))
      (fun i _ => rfl)).1 0 (by omega) (by decide)
      (fun i hi => absurd hi (Nat.not_lt_zero i))
  · exact (C1_amended_thm "koji-db" (fun _ => (0, ["starting\n"]))
      (fun i _ => rfl)).2
      (fun _ _ => by show pyCaptured ["starting\n"] ≠ "true"; decide)

/-- Claim C2: when the target substring first appears in the line
following the prefix pre (the (pre.length + 1)-th line of the stream),
the log-substring poller returns success having read exactly
pre.length + 1 lines. -/
theorem C2_thm (container target : String) (pre : List String) (l : String)
    (post : List String)
    (hpre : ∀ p, p ∈ pre → strContainsB target p = false)
    (hl : strContainsB target l = true) :
    _wait_until_string_is_in_logs container target (pre ++ l :: post) =
      LogsOutcome.found (pre.length + 1) := by
  show waitLogsAux target container "" 0 (pre ++ l :: post) = _
  rw [waitLogsAux_found target container l post hl pre "" 0 hpre, Nat.zero_add]

/-- Claim C2, witness: the substring appears in the second line of a
three-line stream and the poller reads exactly two lines. -/
theorem C2_witness :
    _wait_until_string_is_in_logs "koji-client" "exec sleep infinity"
      (["starting\n"] ++ "exec sleep infinity\n" :: ["more\n"]) =
      LogsOutcome.found 2 :=
  C2_thm "koji-client" "exec sleep infinity" ["starting\n"] "exec sleep infinity\n"
    ["more\n"] (by decide) (by decide)

/-- Claim C3: for the bounded blocking-call poller, success of the first
status invocation means exactly one invocation and an immediate return,
and failure of every invocation means exactly 90 invocations, each
failure followed by sleep(1), before the RuntimeError naming the
OpenShift cluster is raised. -/
theorem C3_thm (results : Nat → Bool) :
    (results 0 = true → _wait_until_openshift_is_up results = OcOutcome.ok 1 0) ∧
    ((∀ i, i < 90 → results i = false) →
      _wait_until_openshift_is_up results = OcOutcome.raised 90 90 ocFailMsg) := by
  constructor
  · intro h
    show waitOpenshiftAux results 0 0 90 = _
    rw [show (90 : Nat) = 89 + 1 from rfl, waitOpenshiftAux, if_pos h]
  · intro h
    have hstep : ∀ j, j < 90 → results (0 + j) = false := by
      intro j hj
      rw [Nat.zero_add]
      exact h j hj
    have he := waitOcAux_exhaust results 90 0 0 hstep
    show waitOpenshiftAux results 0 0 90 = _
    rw [he]

/-- Claim C3, witness: the theorem applied to an always-succeeding and to
an always-failing status command. -/
theorem C3_witness :
    _wait_until_openshift_is_up (fun _ => true) = OcOutcome.ok 1 0 ∧
    _wait_until_openshift_is_up (fun _ => false) = OcOutcome.raised 90 90 ocFailMsg :=
  ⟨(C3_thm (fun _ => true)).1 rfl, (C3_thm (fun _ => false)).2 (fun _ _ => rfl)⟩

/-- Claim C5, counterexample: a stream that ends before the target
appears. The claim says the raised error's payload contains the buffered
log text, but the RuntimeError is raised with the argument tuple
("%s failed to start", container): neither component contains the
buffered text "XYZZY\n"; the text is only printed. -/
theorem C5_counterexample :
    _wait_until_string_is_in_logs "koji-client" "ready" ["XYZZY\n"] =
      LogsOutcome.notFound "XYZZY\n" "%s failed to start" "koji-client" ∧
    strContainsB "XYZZY\n" "%s failed to start" = false ∧
    strContainsB "XYZZY\n" "koji-client" = false := by
  decide

/-- Claim C5 (amended): when the stream ends before the target substring
appears, the poller prints the entire buffered log text and raises a
RuntimeError whose argument tuple is the format string
"%s failed to start" and the container name; the buffered text is
surfaced by the print, not inside the error payload. -/
theorem C5_amended_thm (container target : String) (lines : List String)
    (h : ∀ l, l ∈ lines → strContainsB target l = false) :
    _wait_until_string_is_in_logs container target lines =
      LogsOutcome.notFound (concatLines lines) "%s failed to start" container := by
  show waitLogsAux target container "" 0 lines = _
  rw [waitLogsAux_notFound target container lines "" 0 h]
  rfl

/-- Claim C5, witness: the amended theorem applied to a concrete
two-line stream lacking the target. -/
theorem C5_witness :
    _wait_until_string_is_in_logs "koji-builder" "exec /usr/sbin/init" ["a\n", "b\n"] =
      LogsOutcome.notFound "a\nb\n" "%s failed to start" "koji-builder" :=
  C5_amended_thm "koji-builder" "exec /usr/sbin/init" ["a\n", "b\n"] (by decide)

/-- Claim C4, counterexample: a sequence on which every inspection
command fails. The claim says the failure is absorbed into a
sleep-and-retry, but the poller aborts on the very first attempt with the
uncaught RuntimeError from _run and performs no sleep at all. -/
theorem C4_counterexample :
    _wait_until_container_is_up "koji-hub" (fun _ => (1, ([] : List String))) =
      ContainerOutcome.uncaught 1 0
        (PyExc.runtimeError (runErrMsg (inspectCmd "koji-hub") 1)) ∧
    sleepsOf (_wait_until_container_is_up "koji-hub" (fun _ => (1, ([] : List String)))) = 0 := by
  decide

/-- Claim C4 (amended): the state-flag poller never sleeps: on an attempt
whose inspection command exits 0 with output other than "true" it retries
immediately, and on an attempt whose inspection command exits nonzero the
RuntimeError raised by _run is not matched by the except
CalledProcessError clause and propagates out of the loop, aborting the
poller at that attempt. -/
theorem C4_amended_thm (container : String) (results : Nat → Nat × List String) :
    sleepsOf (_wait_until_container_is_up container results) = 0 ∧
    (∀ k, k < 10 →
      (∀ j, j < k → (results j).1 = 0 ∧ outputAt results j ≠ "true") →
      (results k).1 ≠ 0 →
      _wait_until_container_is_up container results =
        ContainerOutcome.uncaught (k + 1) 0
          (PyExc.runtimeError (runErrMsg (inspectCmd container) (results k).1))) := by
  constructor
  · exact waitAux_sleeps container results 10 0 0
  · intro k hk hj hne
    have hstep : ∀ j, j < k →
        (results (0 + j)).1 = 0 ∧ outputAt results (0 + j) ≠ "true" := by
      intro j hjk
      rw [Nat.zero_add]
      exact hj j hjk
    have hne0 : (results (0 + k)).1 ≠ 0 := by rw [Nat.zero_add]; exact hne
    have h := waitAux_uncaught container results k 10 0 0 hk hstep hne0
    show waitContainerAux container results 0 0 10 = _
    rw [h]
    simp

/-- Claim C4, witness: the amended theorem applied to a sequence whose
first inspection command exits with status 2. -/
theorem C4_witness :
    _wait_until_container_is_up "koji-db" (fun _ => (2, ([] : List String))) =
      ContainerOutcome.uncaught 1 0
        (PyExc.runtimeError (runErrMsg (inspectCmd "koji-db") 2)) ∧
    sleepsOf (_wait_until_container_is_up "koji-db" (fun _ => (2, ([] : List String)))) = 0 := by
  have h := C4_amended_thm "koji-db" (fun _ => (2, ([] : List String)))
  exact ⟨h.2 0 (by omega) (fun j hj => absurd hj (Nat.not_lt_zero j)) (by decide), h.1⟩

/-- Claim C6: applying the registry-config patch to a configuration whose
allowedRegistriesForImport list lacks an entry with domainName equal to
the local registry address appends exactly one such entry (with no other
keys) to the list, leaves the rest of the document unchanged, writes the
result, and returns True; applying the patch again to the written
configuration returns False and writes nothing, so the patch is
idempotent. -/
theorem C6_thm (c : OriginConfig) (h : LOCAL_REGISTRY ∉ domainsOf c) :
    ∃ c2, _update_origin_config c = (true, some c2) ∧
      registriesOf c2 = registriesOf c ++ [{ domainName := LOCAL_REGISTRY }] ∧
      c2.rest = c.rest ∧
      _update_origin_config c2 = (false, none) := by
  have hu : _update_origin_config c = (true, some ({ c with imagePolicy := some (some (registriesOf c ++ [{ domainName := LOCAL_REGISTRY }])) } : OriginConfig)) := by
    rw [_update_origin_config, if_neg h]
  refine ⟨_, hu, rfl, rfl, ?_⟩
  have hin : LOCAL_REGISTRY ∈ domainsOf ({ c with imagePolicy := some (some (registriesOf c ++ [{ domainName := LOCAL_REGISTRY }])) } : OriginConfig) := by
    show LOCAL_REGISTRY ∈ (registriesOf c ++ [Registry.mk LOCAL_REGISTRY []]).map Registry.domainName
    simp
  rw [_update_origin_config, if_pos hin]

/-- Claim C6, witness: the patch applied to a configuration missing both
keys adds the single local-registry entry and is idempotent. -/
theorem C6_witness :
    ∃ c2, _update_origin_config { imagePolicy := none } = (true, some c2) ∧
      registriesOf c2 = registriesOf { imagePolicy := none } ++
        [{ domainName := LOCAL_REGISTRY }] ∧
      c2.rest = OriginConfig.rest { imagePolicy := none } ∧
      _update_origin_config c2 = (false, none) :=
  C6_thm { imagePolicy := none } (by decide)

/-- Claim C7: a command whose exit status is nonzero makes `_run` raise a
RuntimeError whose message contains the command string and the exit code
when ignore_exitcode is unset, while with ignore_exitcode set no error is
raised and the captured output is returned. -/
theorem C7_thm (cmd : String) (exitcode : Nat) (lines : List String)
    (h : exitcode ≠ 0) :
    _run cmd exitcode lines false =
      Except.error (PyExc.runtimeError (runErrMsg cmd exitcode)) ∧
    strContainsB cmd (runErrMsg cmd exitcode) = true ∧
    strContainsB (toString exitcode) (runErrMsg cmd exitcode) = true ∧
    _run cmd exitcode lines true = Except.ok (pyCaptured lines) := by
  refine ⟨by simp [_run, h], ?_, ?_, by simp [_run]⟩
  · have hm : runErrMsg cmd exitcode =
        "Command " ++ cmd ++ (" failed with exitcode " ++ toString exitcode) := by
      rw [runErrMsg, strAppendAssoc]
    rw [hm]
    exact strContainsB_middle "Command " cmd (" failed with exitcode " ++ toString exitcode)
  · have hm : runErrMsg cmd exitcode =
        ("Command " ++ cmd ++ " failed with exitcode ") ++ toString exitcode ++ "" := by
      rw [runErrMsg, strAppendNil]
    rw [hm]
    exact strContainsB_middle ("Command " ++ cmd ++ " failed with exitcode ")
      (toString exitcode) ""

/-- Claim C7, witness: the theorem applied to a concrete command exiting
with status 2. -/
theorem C7_witness :
    _run "docker ps" 2 ["out\n"] false =
      Except.error (PyExc.runtimeError (runErrMsg "docker ps" 2)) ∧
    strContainsB "docker ps" (runErrMsg "docker ps" 2) = true ∧
    strContainsB (toString 2) (runErrMsg "docker ps" 2) = true ∧
    _run "docker ps" 2 ["out\n"] true = Except.ok (pyCaptured ["out\n"]) :=
  C7_thm "docker ps" 2 ["out\n"] (by decide)

/-- Claim C8: with --no-cleanup set, the `up` handler performs no
teardown call and its trace, which starts the cluster, contains no
cleanup event; with the flag unset, cleanup is the first operation and
the cluster start follows it. -/
theorem C8_thm (args : UpArgs) (sslExists : Bool) :
    (args.no_cleanup = true →
      up args sslExists = upRest args sslExists ∧
      UpEvent.cleanup ∉ up args sslExists ∧
      UpEvent.osUp args.ocp_version args.ocp_image args.public_hostname ∈
        up args sslExists) ∧
    (args.no_cleanup = false →
      up args sslExists = UpEvent.cleanup :: upRest args sslExists ∧
      UpEvent.osUp args.ocp_version args.ocp_image args.public_hostname ∈
        upRest args sslExists) := by
  have hmem : UpEvent.osUp args.ocp_version args.ocp_image args.public_hostname ∈
      upRest args sslExists := by
    rw [upRest]
    cases sslExists <;> simp
  have hnot : UpEvent.cleanup ∉ upRest args sslExists := by
    rw [upRest]
    cases sslExists <;> simp [DIRECTORIES, SERVICES]
  constructor
  · intro h
    have he : up args sslExists = upRest args sslExists := by
      rw [up, h]
      rfl
    exact ⟨he, by rw [he]; exact hnot, by rw [he]; exact hmem⟩
  · intro h
    have he : up args sslExists = UpEvent.cleanup :: upRest args sslExists := by
      rw [up, h]
      rfl
    exact ⟨he, hmem⟩

/-- Claim C8, witness: the theorem applied with the flag set and with the
flag unset on otherwise default arguments. -/
theorem C8_witness :
    (up ⟨true, false, false, false, none, "fedora", "v3.6.0", "openshift/origin", none⟩ true =
      upRest ⟨true, false, false, false, none, "fedora", "v3.6.0", "openshift/origin", none⟩ true ∧
     UpEvent.cleanup ∉
      up ⟨true, false, false, false, none, "fedora", "v3.6.0", "openshift/origin", none⟩ true ∧
     UpEvent.osUp "v3.6.0" "openshift/origin" none ∈
      up ⟨true, false, false, false, none, "fedora", "v3.6.0", "openshift/origin", none⟩ true) ∧
    (up ⟨false, false, false, false, none, "fedora", "v3.6.0", "openshift/origin", none⟩ true =
      UpEvent.cleanup ::
        upRest ⟨false, false, false, false, none, "fedora", "v3.6.0", "openshift/origin", none⟩ true ∧
     UpEvent.osUp "v3.6.0" "openshift/origin" none ∈
      upRest ⟨false, false, false, false, none, "fedora", "v3.6.0", "openshift/origin", none⟩ true) :=
  ⟨(C8_thm ⟨true, false, false, false, none, "fedora", "v3.6.0", "openshift/origin", none⟩ true).1 rfl,
   (C8_thm ⟨false, false, false, false, none, "fedora", "v3.6.0", "openshift/origin", none⟩ true).2 rfl⟩

/-- Claim C9: `_pull_image` invokes exactly three external commands, in
order pull of the source, tag of the source to the destination, and push
of the destination, where the destination is the destination repo:tag
prefixed by the local registry address and a slash. -/
theorem C9_thm (source destination_repo : String) :
    _pull_image source destination_repo =
      [["docker", "pull", source],
       ["docker", "tag", source, "172.17.0.1:5000/" ++ destination_repo],
       ["docker", "push", "172.17.0.1:5000/" ++ destination_repo]] ∧
    (_pull_image source destination_repo).length = 3 :=
  ⟨rfl, rfl⟩

/-- Claim C10: when the configuration already contains a registry entry
whose domainName is the local registry address, `_update_origin_config`
returns False and performs no file write at all. -/
theorem C10_thm (c : OriginConfig) (h : LOCAL_REGISTRY ∈ domainsOf c) :
    _update_origin_config c = (false, none) := by
  rw [_update_origin_config, if_pos h]

/-- Claim C10, witness: the theorem applied to a configuration whose
registry list already holds the local registry entry. -/
theorem C10_witness :
    _update_origin_config
      { imagePolicy := some (some [{ domainName := "172.17.0.1:5000" }]) } =
      (false, none) :=
  C10_thm { imagePolicy := some (some [{ domainName := "172.17.0.1:5000" }]) }
    (by decide)
